import Mathlib

/-!
Verification development for `generate_architecture.py`, a one-shot script
that declares a fixed microservices architecture diagram (nodes, nested
clusters, styled edges) via the `diagrams` library and renders it to an
image file.

The script is shallowly embedded as data: each `Pod(...)`, `Cluster(...)`
and `>>` call in the source becomes a literal entry of a Lean list, kept in
the source's textual order so that declaration-order properties are
expressible.  Module-level control flow (the `__main__` guard, propagation
of backend exceptions, console output) is embedded as small functions over
that data.
-/

namespace SockShop

/-- Identifier of a declared node: one constructor per Python variable that
holds a node in `create_architecture_diagram`. -/
inductive NodeId where
  | users
  | route53
  | acm
  | alb
  | iam_note
  | control_plane
  | alb_controller
  | external_dns
  | ingress
  | frontend
  | catalogue
  | carts
  | orders
  | payment
  | user
  | shipping
  | queue_master
  | session_db
  | carts_db
  | user_db
  | catalogue_db
  | orders_db
  | rabbitmq
  | prometheus
  | grafana
  deriving DecidableEq, Fintype, Repr

/-- Category of a node: the `diagrams` class used to construct it
(determines the rendered icon). -/
inductive NodeType where
  | usersT
  | route53T
  | certificateManagerT
  | albT
  | ec2T
  | eksT
  | deploymentT
  | ingressT
  | podT
  | redisT
  | mongoT
  | mysqlT
  | rabbitT
  | prometheusT
  | grafanaT
  deriving DecidableEq, Repr

/-- A node declaration: identifier, category, display label, and the path of
enclosing `Cluster` names from outermost to innermost (empty for a node
declared directly under the `Diagram` context). -/
structure NodeDecl where
  id : NodeId
  ntype : NodeType
  label : String
  clusterPath : List String
  deriving DecidableEq, Repr

/-- A directed edge declaration: a `src >> dst` or `src >> Edge(...) >> dst`
call, with the optional `label`, `style` and `color` keyword attributes of
the `Edge`.  A `src >> [a, b, ...]` fan-out is one `EdgeDecl` per target, in
list order. -/
structure EdgeDecl where
  src : NodeId
  dst : NodeId
  label : Option String
  style : Option String
  color : Option String
  deriving DecidableEq, Repr

/-- Cluster paths, in the nesting declared by the source (lines 27-76). -/
def awsCloudPath : List String := ["AWS Cloud"]

def vpcPath : List String := awsCloudPath ++ ["VPC (Terraform-managed)"]

def eksPath : List String := vpcPath ++ ["EKS Cluster"]

def kubeSystemPath : List String := eksPath ++ ["kube-system"]

def workerNodesPath : List String := eksPath ++ ["Worker Nodes"]

def sockShopNsPath : List String := workerNodesPath ++ ["Namespace: sock-shop"]

def appLayerPath : List String := sockShopNsPath ++ ["Application Layer"]

def bizLayerPath : List String := sockShopNsPath ++ ["Business Logic"]

def dataLayerPath : List String := sockShopNsPath ++ ["Data Layer"]

def monitoringNsPath : List String := workerNodesPath ++ ["Namespace: monitoring"]

/-- Every `with Cluster(...)` entered by the source, in entry order. -/
def clusterDecls : List (List String) :=
  [awsCloudPath, vpcPath, eksPath, kubeSystemPath, workerNodesPath,
   sockShopNsPath, appLayerPath, bizLayerPath, dataLayerPath, monitoringNsPath]

/-- All node declarations of `create_architecture_diagram`, in source order
(lines 24-76). -/
def nodeDecls : List NodeDecl :=
  [ ⟨.users, .usersT, "Users", []⟩,
    ⟨.route53, .route53T, "Route53\nsock.blessedc.org\n(Managed by ExternalDNS)", awsCloudPath⟩,
    ⟨.acm, .certificateManagerT, "ACM Wildcard\n*.sock.blessedc.org\n(+ sock.blessedc.org SAN)", awsCloudPath⟩,
    ⟨.alb, .albT, "Application\nLoad Balancer\n(ALB - TLS Termination)", vpcPath⟩,
    ⟨.iam_note, .ec2T, "IRSA roles\n(alb-controller, external-dns)", vpcPath⟩,
    ⟨.control_plane, .eksT, "EKS Control Plane", eksPath⟩,
    ⟨.alb_controller, .deploymentT, "aws-load-balancer-controller\n(Deployment, IRSA)", kubeSystemPath⟩,
    ⟨.external_dns, .deploymentT, "external-dns\n(Deployment, IRSA)", kubeSystemPath⟩,
    ⟨.ingress, .ingressT, "ALB Ingress (Ingress resources)", appLayerPath⟩,
    ⟨.frontend, .podT, "Frontend\nService\n(\x7b\x7b .Release.Name \x7d\x7d-frontend)", appLayerPath⟩,
    ⟨.catalogue, .podT, "Catalogue\nService", bizLayerPath⟩,
    ⟨.carts, .podT, "Carts\nService", bizLayerPath⟩,
    ⟨.orders, .podT, "Orders\nService", bizLayerPath⟩,
    ⟨.payment, .podT, "Payment\nService", bizLayerPath⟩,
    ⟨.user, .podT, "User\nService", bizLayerPath⟩,
    ⟨.shipping, .podT, "Shipping\nService", bizLayerPath⟩,
    ⟨.queue_master, .podT, "Queue\nMaster", bizLayerPath⟩,
    ⟨.session_db, .redisT, "Session DB\n(Redis)", dataLayerPath⟩,
    ⟨.carts_db, .mongoT, "Carts DB", dataLayerPath⟩,
    ⟨.user_db, .mongoT, "User DB", dataLayerPath⟩,
    ⟨.catalogue_db, .mysqlT, "Catalogue DB\n(MySQL / RDS)", dataLayerPath⟩,
    ⟨.orders_db, .mongoT, "Orders DB", dataLayerPath⟩,
    ⟨.rabbitmq, .rabbitT, "RabbitMQ", dataLayerPath⟩,
    ⟨.prometheus, .prometheusT, "Prometheus\n(Helm)", monitoringNsPath⟩,
    ⟨.grafana, .grafanaT, "Grafana\n(Helm)", monitoringNsPath⟩ ]

/-- All edge declarations, in source order (lines 79-110).  List targets
(`frontend >> [catalogue, ...]`, `prometheus >> Edge(...) >> [...]`) expand
to one edge per target, in list order. -/
def edgeDecls : List EdgeDecl :=
  [ ⟨.users, .route53, some "https://sock.blessedc.org", none, none⟩,
    ⟨.route53, .alb, some "A record -> ALB\n(created by ExternalDNS)", none, none⟩,
    ⟨.external_dns, .route53, some "creates/updates DNS records", some "dashed", none⟩,
    ⟨.acm, .alb, some "DNS validated via Route53", some "dotted", some "green"⟩,
    ⟨.alb_controller, .alb, some "reconciles Ingress\ncreates target groups/listeners", none, none⟩,
    ⟨.alb, .ingress, some "routes traffic", none, none⟩,
    ⟨.ingress, .frontend, none, none, none⟩,
    ⟨.frontend, .catalogue, none, none, none⟩,
    ⟨.frontend, .carts, none, none, none⟩,
    ⟨.frontend, .orders, none, none, none⟩,
    ⟨.frontend, .user, none, none, none⟩,
    ⟨.frontend, .payment, none, none, none⟩,
    ⟨.frontend, .shipping, none, none, none⟩,
    ⟨.frontend, .session_db, none, none, none⟩,
    ⟨.catalogue, .catalogue_db, none, none, none⟩,
    ⟨.carts, .carts_db, none, none, none⟩,
    ⟨.orders, .orders_db, none, none, none⟩,
    ⟨.user, .user_db, none, none, none⟩,
    ⟨.queue_master, .rabbitmq, none, none, none⟩,
    ⟨.prometheus, .frontend, some "scrapes", some "dashed", some "purple"⟩,
    ⟨.prometheus, .catalogue, some "scrapes", some "dashed", some "purple"⟩,
    ⟨.prometheus, .carts, some "scrapes", some "dashed", some "purple"⟩,
    ⟨.prometheus, .orders, some "scrapes", some "dashed", some "purple"⟩,
    ⟨.prometheus, .payment, some "scrapes", some "dashed", some "purple"⟩,
    ⟨.prometheus, .user, some "scrapes", some "dashed", some "purple"⟩,
    ⟨.prometheus, .shipping, some "scrapes", some "dashed", some "purple"⟩,
    ⟨.grafana, .prometheus, none, some "dashed", some "purple"⟩,
    ⟨.iam_note, .alb_controller, some "IRSA for controller & external-dns", some "dotted", none⟩,
    ⟨.iam_note, .external_dns, none, some "dotted", none⟩ ]

/-- Title passed to `Diagram(...)` (line 21). -/
def diagramTitle : String := "Sock Shop Microservices Architecture (improved)"

/-- One step of `create_architecture_diagram`, in the order the Python
interpreter performs them: entering the `Diagram` context, declaring a node,
declaring an edge, and rendering (which the `Diagram` context performs on
exit). -/
inductive Event where
  | openDiagram (title : String) (showFlag : Bool) (direction : String)
  | declNode (n : NodeDecl)
  | declEdge (e : EdgeDecl)
  | render (title : String)
  deriving DecidableEq, Repr

/-- The full construction trace of `create_architecture_diagram` (lines
19-110): the `with Diagram(...)` entry, all node declarations, all edge
declarations (nodes precede edges in the source), then the render performed
when the `with` block exits. -/
def create_architecture_diagram : List Event :=
  Event.openDiagram diagramTitle false "TB"
    :: (nodeDecls.map Event.declNode ++ edgeDecls.map Event.declEdge
        ++ [Event.render diagramTitle])

/-- The node identifiers the script declares, in declaration order. -/
def allNodeIds : List NodeId := nodeDecls.map NodeDecl.id

/-- The node identifiers declared by a trace, in order. -/
def declaredNodeIds (tr : List Event) : List NodeId :=
  tr.filterMap fun ev =>
    match ev with
    | Event.declNode n => some n.id
    | _ => none

/-- Scans a trace left to right, accumulating the identifiers of nodes
declared so far, and checks that every edge declaration references only
identifiers already accumulated — i.e. both endpoints of every edge were
declared as nodes strictly before the edge. -/
def edgeEndpointsDeclared : List NodeId → List Event → Bool
  | _, [] => true
  | seen, Event.declNode n :: rest => edgeEndpointsDeclared (n.id :: seen) rest
  | seen, Event.declEdge e :: rest =>
      seen.contains e.src && seen.contains e.dst && edgeEndpointsDeclared seen rest
  | seen, _ :: rest => edgeEndpointsDeclared seen rest

/-- Cluster `a` contains cluster `b` (directly or through intermediate
clusters) when `a`'s path is a proper prefix of `b`'s path. -/
def containsCluster (a b : List String) : Bool :=
  a.isPrefixOf b && a != b

/-- Observable side effects of the module's top level: the call to
`create_architecture_diagram()` (carrying the trace it builds) and a line
printed to the console. -/
inductive Effect where
  | generateDiagram (tr : List Event)
  | consolePrint (line : String)
  deriving DecidableEq, Repr

/-- Splits a character list into maximal runs of non-space characters,
dropping the spaces — the behaviour of Python's `str.split()` with no
arguments on space-separated text.  `cur` accumulates the current word in
reverse. -/
def splitWordsAux : List Char → List Char → List (List Char)
  | [], cur => if cur.isEmpty then [] else [cur.reverse]
  | c :: cs, cur =>
      if c = ' ' then
        if cur.isEmpty then splitWordsAux cs []
        else cur.reverse :: splitWordsAux cs []
      else splitWordsAux cs (c :: cur)

/-- Joins words with a single underscore between consecutive words:
`"_".join(...)`. -/
def joinUnderscore : List (List Char) → List Char
  | [] => []
  | [w] => w
  | w :: ws => w ++ '_' :: joinUnderscore ws

/-- The filename the `diagrams` backend derives from a diagram title when no
explicit filename is given: the title's whitespace-separated words joined
with underscores, lowercased (the library computes
`"_".join(name.split()).lower()`); the output image is this stem plus the
default `.png` extension. -/
def sanitizeFilename (name : String) : String :=
  String.mk ((joinUnderscore (splitWordsAux name.data [])).map Char.toLower)

/-- Stem-plus-extension of the image file the run writes. -/
def outputFilename : String := sanitizeFilename diagramTitle ++ ".png"

/-- The filename the confirmation message on line 114 claims for the
generated image. -/
def statedFilename : String :=
  "sock_shop_microservices_architecture (improved).png"

/-- The confirmation line printed on line 114 of the script. -/
def confirmationLine : String :=
  "Improved architecture diagram generated as \x27sock_shop_microservices_architecture (improved).png\x27"

/-- Top-level semantics of the module (lines 112-114).  `name` is the value
of Python's `__name__` for this execution (`"__main__"` when run as the main
program, the import name otherwise); `renderOutcome` is whether the
rendering backend succeeds or raises.  The module installs no exception
handler, so a backend error propagates unchanged and nothing after the
failing call runs; on success the effects are the diagram generation
followed by the confirmation print. -/
def runModule (name : String) (renderOutcome : Except String Unit) :
    Except String (List Effect) :=
  if name = "__main__" then
    match renderOutcome with
    | Except.error e => Except.error e
    | Except.ok _ =>
        Except.ok [Effect.generateDiagram create_architecture_diagram,
                   Effect.consolePrint confirmationLine]
  else Except.ok []

/-- A run of the program as a function of a command line and an environment.
The script reads neither (`sys.argv`, `os.environ` and file inputs are never
consulted): every node, cluster and edge is a literal in the program text,
so the constructed diagram does not depend on the arguments. -/
def buildDiagram (_argv : List String) (_env : String → Option String) :
    List Event :=
  create_architecture_diagram

/-- Node identifiers of the datastore nodes (the Data Layer: Redis, the
three MongoDB instances, MySQL, RabbitMQ). -/
def datastoreIds : List NodeId :=
  [NodeId.session_db, NodeId.carts_db, NodeId.user_db,
   NodeId.catalogue_db, NodeId.orders_db, NodeId.rabbitmq]

/-- Node identifiers of the monitoring namespace nodes. -/
def monitoringNodeIds : List NodeId := [NodeId.prometheus, NodeId.grafana]

/-- Recognises the `Diagram` context entry event. -/
def isOpenEvent : Event → Bool
  | Event.openDiagram _ _ _ => true
  | _ => false

/-- Recognises the render event. -/
def isRenderEvent : Event → Bool
  | Event.render _ => true
  | _ => false

/-- C1: every edge of the construction trace references only node
identifiers declared strictly earlier in the trace (both endpoints,
including every edge arising from a list-valued target), and the declared
node set is fixed and fully enumerable: the trace declares exactly the
`allNodeIds` list, without duplicates, and it exhausts the `NodeId` type. -/
theorem claim1_edges_reference_declared_nodes :
    edgeEndpointsDeclared [] create_architecture_diagram = true
    ∧ declaredNodeIds create_architecture_diagram = allNodeIds
    ∧ allNodeIds.Nodup
    ∧ ∀ x : NodeId, x ∈ allNodeIds := by decide

/-- C2: importing the module (any `__name__` other than `"__main__"`)
produces no effect at all — no diagram generation, no file write, no console
output — while running it as the main program produces exactly the
generation call followed by the confirmation print. -/
theorem claim2_main_guard :
    (∀ (name : String) (r : Except String Unit), name ≠ "__main__" →
        runModule name r = Except.ok [])
    ∧ runModule "__main__" (Except.ok ()) =
        Except.ok [Effect.generateDiagram create_architecture_diagram,
                   Effect.consolePrint confirmationLine] := by
  constructor
  · intro name r h
    simp [runModule, h]
  · rfl

/-- Witness for C2 at the module's actual import name: importing
`generate_architecture` yields no effects. -/
theorem claim2_main_guard_witness :
    runModule "generate_architecture" (Except.ok ()) = Except.ok [] :=
  claim2_main_guard.1 "generate_architecture" (Except.ok ()) (by decide)

/-- C3: the constructed diagram is a function of the program text alone —
the script consults neither its command line nor its environment, so any two
runs build identical traces (hence identical node, edge and cluster sets). -/
theorem claim3_deterministic_construction :
    ∀ (a1 a2 : List String) (e1 e2 : String → Option String),
      buildDiagram a1 e1 = buildDiagram a2 e2 :=
  fun _ _ _ _ => rfl

/-- C4 (divergence): the image file actually written is named by sanitizing
the diagram title — `sock_shop_microservices_architecture_(improved).png`,
with an underscore before `(improved)` — but the confirmation line printed
by the main guard states the filename
`sock_shop_microservices_architecture (improved).png`, with a space, so the
stated filename is not the name of the file written. -/
theorem claim4_confirmation_filename_mismatch :
    outputFilename = "sock_shop_microservices_architecture_(improved).png"
    ∧ confirmationLine =
        "Improved architecture diagram generated as \x27" ++ statedFilename ++ "\x27"
    ∧ statedFilename ≠ outputFilename
    ∧ runModule "__main__" (Except.ok ()) =
        Except.ok [Effect.generateDiagram create_architecture_diagram,
                   Effect.consolePrint confirmationLine] := by
  exact ⟨by decide, by decide, by decide, rfl⟩

/-- C5: the cluster structure nests as stated — AWS Cloud contains the VPC,
the VPC contains the EKS Cluster, the EKS Cluster contains the three
namespace boundaries (kube-system directly; the sock-shop and monitoring
namespaces through the Worker Nodes grouping), the sock-shop namespace
contains the three layer groupings — and every node except the external
`Users` node is declared inside one of the declared clusters (its innermost
applicable one), `Users` being declared at diagram top level. -/
theorem claim5_cluster_nesting :
    containsCluster awsCloudPath vpcPath = true
    ∧ containsCluster vpcPath eksPath = true
    ∧ containsCluster eksPath kubeSystemPath = true
    ∧ containsCluster eksPath sockShopNsPath = true
    ∧ containsCluster eksPath monitoringNsPath = true
    ∧ containsCluster sockShopNsPath appLayerPath = true
    ∧ containsCluster sockShopNsPath bizLayerPath = true
    ∧ containsCluster sockShopNsPath dataLayerPath = true
    ∧ nodeDecls.all
        (fun n => n.clusterPath.isEmpty || clusterDecls.contains n.clusterPath) = true
    ∧ (nodeDecls.filter (fun n => n.clusterPath.isEmpty)).map NodeDecl.id
        = [NodeId.users] := by decide

/-- C6: the trace opens exactly one root diagram — with the declared title,
`show=False` and top-to-bottom direction, as its first step — and renders
exactly once, as its last step, so nothing after the render touches the
diagram. -/
theorem claim6_diagram_lifecycle :
    create_architecture_diagram.filter isOpenEvent
        = [Event.openDiagram diagramTitle false "TB"]
    ∧ create_architecture_diagram.filter isRenderEvent
        = [Event.render diagramTitle]
    ∧ create_architecture_diagram.head?
        = some (Event.openDiagram diagramTitle false "TB")
    ∧ create_architecture_diagram.getLast?
        = some (Event.render diagramTitle) := by decide

/-- C7: no exception handler exists, so a backend failure during generation
propagates out of the program unchanged: the run terminates with the
backend's error, produces no effect list at all (in particular the
confirmation line is not printed), and nothing is retried. -/
theorem claim7_no_exception_caught :
    ∀ (e : String),
      runModule "__main__" (Except.error e) = Except.error e
      ∧ ∀ (effs : List Effect),
          runModule "__main__" (Except.error e) ≠ Except.ok effs := by
  intro e
  have h1 : runModule "__main__" (Except.error e) = Except.error e := rfl
  exact ⟨h1, fun effs hc => Except.noConfusion (h1 ▸ hc)⟩

/-- C8: the `Payment` and `Shipping` pods are never the source of any edge;
each occurs as a target exactly twice — once in the frontend fan-out and
once as a Prometheus scrape target — and in particular no edge connects
either of them to a datastore. -/
theorem claim8_payment_shipping_never_sources :
    edgeDecls.all
        (fun e => e.src != NodeId.payment && e.src != NodeId.shipping) = true
    ∧ edgeDecls.filter (fun e => e.dst == NodeId.payment)
        = [⟨NodeId.frontend, NodeId.payment, none, none, none⟩,
           ⟨NodeId.prometheus, NodeId.payment,
            some "scrapes", some "dashed", some "purple"⟩]
    ∧ edgeDecls.filter (fun e => e.dst == NodeId.shipping)
        = [⟨NodeId.frontend, NodeId.shipping, none, none, none⟩,
           ⟨NodeId.prometheus, NodeId.shipping,
            some "scrapes", some "dashed", some "purple"⟩]
    ∧ edgeDecls.all
        (fun e => !((e.src == NodeId.payment || e.src == NodeId.shipping)
                    && datastoreIds.contains e.dst)) = true := by decide

/-- C9: the `EKS Control Plane` node is declared but participates in no
edge, neither as source nor as target: it is an isolated node. -/
theorem claim9_control_plane_isolated :
    NodeId.control_plane ∈ allNodeIds
    ∧ edgeDecls.all
        (fun e => e.src != NodeId.control_plane
                  && e.dst != NodeId.control_plane) = true := by decide

/-- C10: the edges touching the monitoring nodes are exactly the seven
dashed purple `scrapes` edges from Prometheus to the frontend, catalogue,
carts, orders, payment, user and shipping pods, plus one dashed purple edge
from Grafana to Prometheus; Prometheus scrapes neither the queue-master pod
nor any datastore node. -/
theorem claim10_monitoring_edges :
    edgeDecls.filter
        (fun e => monitoringNodeIds.contains e.src
                  || monitoringNodeIds.contains e.dst)
      = [⟨NodeId.prometheus, NodeId.frontend,
          some "scrapes", some "dashed", some "purple"⟩,
         ⟨NodeId.prometheus, NodeId.catalogue,
          some "scrapes", some "dashed", some "purple"⟩,
         ⟨NodeId.prometheus, NodeId.carts,
          some "scrapes", some "dashed", some "purple"⟩,
         ⟨NodeId.prometheus, NodeId.orders,
          some "scrapes", some "dashed", some "purple"⟩,
         ⟨NodeId.prometheus, NodeId.payment,
          some "scrapes", some "dashed", some "purple"⟩,
         ⟨NodeId.prometheus, NodeId.user,
          some "scrapes", some "dashed", some "purple"⟩,
         ⟨NodeId.prometheus, NodeId.shipping,
          some "scrapes", some "dashed", some "purple"⟩,
         ⟨NodeId.grafana, NodeId.prometheus, none, some "dashed", some "purple"⟩]
    ∧ edgeDecls.all
        (fun e => !(e.src == NodeId.prometheus
                    && (e.dst == NodeId.queue_master
                        || datastoreIds.contains e.dst))) = true := by decide

end SockShop
